import Mathlib

/-! Shallow embedding of the dual-mode VM adapter of the hardhat repository:
`packages/hardhat-core/src/internal/hardhat-network/provider/vm/dual.ts`
(DualModeAdapter, assertEqualRunTxResults, assertEqualAccounts) and the
candidate backend adapter `rethnet.ts` (RethnetAdapter).  Byte buffers are
lists of naturals, bigint fields are naturals, and the console output of the
adapters is made explicit as a list of log events. -/

/-- A byte buffer (node `Buffer`); each entry is one byte. -/
abbrev Buffer := List Nat

/-- `Buffer.alloc(size, fill)`. -/
def Buffer.alloc (size fill : Nat) : Buffer := List.replicate size fill

/-- `Address` from ethereumjs-util: a wrapper around its byte buffer `buf`. -/
structure Address where
  buf : Buffer
  deriving DecidableEq, Repr

/-- One lower-case hexadecimal digit character. -/
def hexDigit (n : Nat) : Char :=
  if n < 10 then Char.ofNat (48 + n) else Char.ofNat (87 + n)

/-- Two-character lower-case hexadecimal rendering of one byte. -/
def byteToHex (b : Nat) : String :=
  String.mk [hexDigit (b / 16), hexDigit (b % 16)]

/-- `buffer.toString("hex")`: concatenated two-digit renderings of the bytes. -/
def bufferToHex : Buffer → String
  | [] => ""
  | b :: rest => byteToHex b ++ bufferToHex rest

/-- `Address.toString()`: `"0x"` followed by the hex rendering of the bytes. -/
def addressToString (a : Address) : String :=
  "0x" ++ bufferToHex a.buf

/-- `createdAddress?.toString()`: optional chaining maps `undefined` to
`undefined` and an address to its string form. -/
def optionAddressToString : Option Address → Option String
  | none => none
  | some a => some (addressToString a)

/-- Rendering of a possibly-undefined string inside a template literal
(`undefined` prints as the text "undefined"). -/
def renderOptionString (o : Option String) : String :=
  o.getD ("undefined")

/-- `Account` from ethereumjs-util, as read and written by the adapters. -/
structure Account where
  balance : Nat
  nonce : Nat
  codeHash : Buffer
  storageRoot : Buffer
  deriving DecidableEq, Repr

/-- The `exceptionError` record of an execution result. -/
structure ExceptionError where
  error : String
  errorType : String
  deriving DecidableEq, Repr

/-- The `execResult` component of a `RunTxResult`. -/
structure ExecResult where
  exceptionError : Option ExceptionError
  returnValue : Buffer
  deriving DecidableEq, Repr

/-- The fields of `RunTxResult` that `assertEqualRunTxResults` inspects. -/
structure RunTxResult where
  totalGasSpent : Nat
  gasRefund : Nat
  createdAddress : Option Address
  execResult : ExecResult
  deriving DecidableEq, Repr

/-- Execution traces are opaque diagnostic artifacts; only their identity
matters to the adapter, never their content. -/
abbrev Trace := Nat

/-- One entry of console output produced by the dual adapter: a
`console.trace` divergence message, a `console.log` line, or the rendering of
one backend's execution trace (`printEthereumJSTrace` / `printRethnetTrace`). -/
inductive LogEvent where
  | consoleTrace (msg : String)
  | consoleLog (msg : String)
  | ethereumJSTraceDump (t : Trace)
  | rethnetTraceDump (t : Trace)
  deriving DecidableEq, Repr

/-- The shape shared by every divergence message in dual.ts:
`Different <field>: <left> !== <right>`. -/
def divergenceMsg (field left right : String) : String :=
  "Different " ++ field ++ ": " ++ left ++ " !== " ++ right

/-- `assertEqualRunTxResults` (dual.ts lines 266-328).  Returns the console
output it produces and the error it throws, `none` when the results are
accepted as equal.  Buffer values in messages are rendered in hex. -/
def assertEqualRunTxResults (ethereumJSResult rethnetResult : RunTxResult) :
    List LogEvent × Option String :=
  if ethereumJSResult.totalGasSpent ≠ rethnetResult.totalGasSpent then
    ([LogEvent.consoleTrace (divergenceMsg ("totalGasSpent")
        (toString ethereumJSResult.totalGasSpent) (toString rethnetResult.totalGasSpent))],
      some ("Different totalGasSpent"))
  else if ethereumJSResult.gasRefund ≠ rethnetResult.gasRefund then
    ([LogEvent.consoleTrace (divergenceMsg ("gasRefund")
        (toString ethereumJSResult.gasRefund) (toString rethnetResult.gasRefund))],
      some ("Different gasRefund"))
  else if optionAddressToString ethereumJSResult.createdAddress ≠
      optionAddressToString rethnetResult.createdAddress then
    ([LogEvent.consoleTrace (divergenceMsg ("createdAddress")
        (renderOptionString (optionAddressToString ethereumJSResult.createdAddress))
        (renderOptionString (optionAddressToString rethnetResult.createdAddress)))],
      some ("Different createdAddress"))
  else if ethereumJSResult.execResult.exceptionError.map ExceptionError.error ≠
      rethnetResult.execResult.exceptionError.map ExceptionError.error then
    ([LogEvent.consoleTrace (divergenceMsg ("exceptionError.error")
        (renderOptionString (ethereumJSResult.execResult.exceptionError.map ExceptionError.error))
        (renderOptionString (rethnetResult.execResult.exceptionError.map ExceptionError.error)))],
      some ("Different exceptionError.error"))
  else if ethereumJSResult.execResult.exceptionError.map ExceptionError.errorType ≠
      rethnetResult.execResult.exceptionError.map ExceptionError.errorType then
    ([LogEvent.consoleTrace (divergenceMsg ("exceptionError.errorType")
        (renderOptionString (ethereumJSResult.execResult.exceptionError.map ExceptionError.errorType))
        (renderOptionString (rethnetResult.execResult.exceptionError.map ExceptionError.errorType)))],
      some ("Different exceptionError.errorType"))
  else if ethereumJSResult.createdAddress = none then
    if bufferToHex ethereumJSResult.execResult.returnValue ≠
        bufferToHex rethnetResult.execResult.returnValue then
      ([LogEvent.consoleTrace (divergenceMsg ("returnValue")
          (bufferToHex ethereumJSResult.execResult.returnValue)
          (bufferToHex rethnetResult.execResult.returnValue))],
        some ("Different returnValue"))
    else ([], none)
  else ([], none)

/-- Modelled from the spec: variant of `assertEqualRunTxResults` whose
returnValue comparison is gated on no contract having been created in either
result ("compared byte-for-byte only when no contract was created" in either
result, section 4.3).  It exists only to be compared with the source
function, whose gate tests the reference result's `createdAddress` alone. -/
def assertEqualRunTxResultsBothGate (ethereumJSResult rethnetResult : RunTxResult) :
    List LogEvent × Option String :=
  if ethereumJSResult.totalGasSpent ≠ rethnetResult.totalGasSpent then
    ([LogEvent.consoleTrace (divergenceMsg ("totalGasSpent")
        (toString ethereumJSResult.totalGasSpent) (toString rethnetResult.totalGasSpent))],
      some ("Different totalGasSpent"))
  else if ethereumJSResult.gasRefund ≠ rethnetResult.gasRefund then
    ([LogEvent.consoleTrace (divergenceMsg ("gasRefund")
        (toString ethereumJSResult.gasRefund) (toString rethnetResult.gasRefund))],
      some ("Different gasRefund"))
  else if optionAddressToString ethereumJSResult.createdAddress ≠
      optionAddressToString rethnetResult.createdAddress then
    ([LogEvent.consoleTrace (divergenceMsg ("createdAddress")
        (renderOptionString (optionAddressToString ethereumJSResult.createdAddress))
        (renderOptionString (optionAddressToString rethnetResult.createdAddress)))],
      some ("Different createdAddress"))
  else if ethereumJSResult.execResult.exceptionError.map ExceptionError.error ≠
      rethnetResult.execResult.exceptionError.map ExceptionError.error then
    ([LogEvent.consoleTrace (divergenceMsg ("exceptionError.error")
        (renderOptionString (ethereumJSResult.execResult.exceptionError.map ExceptionError.error))
        (renderOptionString (rethnetResult.execResult.exceptionError.map ExceptionError.error)))],
      some ("Different exceptionError.error"))
  else if ethereumJSResult.execResult.exceptionError.map ExceptionError.errorType ≠
      rethnetResult.execResult.exceptionError.map ExceptionError.errorType then
    ([LogEvent.consoleTrace (divergenceMsg ("exceptionError.errorType")
        (renderOptionString (ethereumJSResult.execResult.exceptionError.map ExceptionError.errorType))
        (renderOptionString (rethnetResult.execResult.exceptionError.map ExceptionError.errorType)))],
      some ("Different exceptionError.errorType"))
  else if ethereumJSResult.createdAddress = none ∧ rethnetResult.createdAddress = none then
    if bufferToHex ethereumJSResult.execResult.returnValue ≠
        bufferToHex rethnetResult.execResult.returnValue then
      ([LogEvent.consoleTrace (divergenceMsg ("returnValue")
          (bufferToHex ethereumJSResult.execResult.returnValue)
          (bufferToHex rethnetResult.execResult.returnValue))],
        some ("Different returnValue"))
    else ([], none)
  else ([], none)

/-- The condition under which control in `assertEqualRunTxResults` reaches the
returnValue comparison: every earlier check has passed. -/
def reachesReturnValueCheck (ethereumJSResult rethnetResult : RunTxResult) : Prop :=
  ethereumJSResult.totalGasSpent = rethnetResult.totalGasSpent ∧
  ethereumJSResult.gasRefund = rethnetResult.gasRefund ∧
  optionAddressToString ethereumJSResult.createdAddress =
    optionAddressToString rethnetResult.createdAddress ∧
  ethereumJSResult.execResult.exceptionError.map ExceptionError.error =
    rethnetResult.execResult.exceptionError.map ExceptionError.error ∧
  ethereumJSResult.execResult.exceptionError.map ExceptionError.errorType =
    rethnetResult.execResult.exceptionError.map ExceptionError.errorType

/-- `assertEqualAccounts` (dual.ts lines 330-362): balance, then codeHash,
then nonce; the storageRoot comparison is commented out in the source. -/
def assertEqualAccounts (ethereumJSAccount rethnetAccount : Account) :
    List LogEvent × Option String :=
  if ethereumJSAccount.balance ≠ rethnetAccount.balance then
    ([LogEvent.consoleTrace (divergenceMsg ("balance")
        (toString ethereumJSAccount.balance) (toString rethnetAccount.balance))],
      some ("Different balance"))
  else if ethereumJSAccount.codeHash ≠ rethnetAccount.codeHash then
    ([LogEvent.consoleTrace (divergenceMsg ("codeHash")
        (bufferToHex ethereumJSAccount.codeHash) (bufferToHex rethnetAccount.codeHash))],
      some ("Different codeHash"))
  else if ethereumJSAccount.nonce ≠ rethnetAccount.nonce then
    ([LogEvent.consoleTrace (divergenceMsg ("nonce")
        (toString ethereumJSAccount.nonce) (toString rethnetAccount.nonce))],
      some ("Different nonce"))
  else ([], none)

/-- The console output of the catch block of `dryRun` / `runTxInBlock`:
both backends' execution traces are printed before the error is rethrown. -/
def traceDumpEvents (ethereumJSTrace rethnetTrace : Trace) : List LogEvent :=
  [LogEvent.consoleLog ("EthereumJS trace"), LogEvent.ethereumJSTraceDump ethereumJSTrace,
    LogEvent.consoleLog (""), LogEvent.consoleLog ("Rethnet trace"),
    LogEvent.rethnetTraceDump rethnetTrace]

/-- `DualModeAdapter.dryRun` (dual.ts lines 73-100), as a function of the two
backends' results and traces: compares the results and on success returns the
rethnet result and trace; on mismatch dumps both traces and rethrows. -/
def DualModeAdapter.dryRun (ethereumJSResult rethnetResult : RunTxResult)
    (ethereumJSTrace rethnetTrace : Trace) :
    List LogEvent × Except String (RunTxResult × Trace) :=
  match assertEqualRunTxResults ethereumJSResult rethnetResult with
  | (log, none) => (log, Except.ok (rethnetResult, rethnetTrace))
  | (log, some e) => (log ++ traceDumpEvents ethereumJSTrace rethnetTrace, Except.error e)

/-- `DualModeAdapter.runTxInBlock` (dual.ts lines 223-246): like `dryRun` but
on success returns the ethereumJS result and trace. -/
def DualModeAdapter.runTxInBlock (ethereumJSResult rethnetResult : RunTxResult)
    (ethereumJSTrace rethnetTrace : Trace) :
    List LogEvent × Except String (RunTxResult × Trace) :=
  match assertEqualRunTxResults ethereumJSResult rethnetResult with
  | (log, none) => (log, Except.ok (ethereumJSResult, ethereumJSTrace))
  | (log, some e) => (log ++ traceDumpEvents ethereumJSTrace rethnetTrace, Except.error e)

/-- `DualModeAdapter.getAccount` (dual.ts lines 118-125): compares the two
accounts and returns the ethereumJS account on agreement. -/
def DualModeAdapter.getAccount (ethereumJSAccount rethnetAccount : Account) :
    List LogEvent × Except String Account :=
  match assertEqualAccounts ethereumJSAccount rethnetAccount with
  | (log, none) => (log, Except.ok ethereumJSAccount)
  | (log, some e) => (log, Except.error e)

/-- `DualModeAdapter.getContractStorage` (dual.ts lines 127-147): byte
equality of the two slots; returns the rethnet slot on agreement. -/
def DualModeAdapter.getContractStorage (ethereumJSStorageSlot rethnetStorageSlot : Buffer) :
    List LogEvent × Except String Buffer :=
  if ethereumJSStorageSlot ≠ rethnetStorageSlot then
    ([LogEvent.consoleTrace (divergenceMsg ("storage slot")
        (bufferToHex ethereumJSStorageSlot) (bufferToHex rethnetStorageSlot))],
      Except.error ("Different storage slot"))
  else ([], Except.ok rethnetStorageSlot)

/-- `DualModeAdapter.getContractCode` (dual.ts lines 149-163): byte equality
of the two code buffers; returns the rethnet code on agreement. -/
def DualModeAdapter.getContractCode (ethereumJSCode rethnetCode : Buffer) :
    List LogEvent × Except String Buffer :=
  if ethereumJSCode ≠ rethnetCode then
    ([LogEvent.consoleTrace (divergenceMsg ("contract code")
        (bufferToHex ethereumJSCode) (bufferToHex rethnetCode))],
      Except.error ("Different contract code"))
  else ([], Except.ok rethnetCode)

/-- `DualModeAdapter.getStateRoot` (dual.ts lines 102-116): byte equality of
the two roots; returns the rethnet root on agreement. -/
def DualModeAdapter.getStateRoot (ethereumJSRoot rethnetRoot : Buffer) :
    List LogEvent × Except String Buffer :=
  if ethereumJSRoot ≠ rethnetRoot then
    ([LogEvent.consoleTrace (divergenceMsg ("state root")
        (bufferToHex ethereumJSRoot) (bufferToHex rethnetRoot))],
      Except.error ("Different state root"))
  else ([], Except.ok rethnetRoot)

/-- The keyed state held by one backend's state manager. -/
structure StoreState where
  accounts : List (Address × Account)
  contractCode : List (Address × Buffer)
  contractStorage : List ((Address × Buffer) × Buffer)
  deriving DecidableEq, Repr

/-- The block header record passed to `BlockBuilder.new` by
`RethnetAdapter.addBlockRewards` (rethnet.ts lines 208-240). -/
structure BlockHeaderData where
  parentHash : Buffer
  ommersHash : Buffer
  beneficiary : Buffer
  stateRoot : Buffer
  transactionsRoot : Buffer
  receiptsRoot : Buffer
  logsBloom : Buffer
  difficulty : Nat
  number : Nat
  gasLimit : Nat
  gasUsed : Nat
  timestamp : Nat
  extraData : Buffer
  mixHash : Buffer
  nonce : Nat
  deriving DecidableEq, Repr

/-- The literal header record built in `RethnetAdapter.addBlockRewards`
(commented "Dummy values" in the source). -/
def dummyHeaderData : BlockHeaderData :=
  { parentHash := Buffer.alloc 32 0
    ommersHash := Buffer.alloc 32 0
    beneficiary := Buffer.alloc 20 0
    stateRoot := Buffer.alloc 32 0
    transactionsRoot := Buffer.alloc 32 0
    receiptsRoot := Buffer.alloc 32 0
    logsBloom := Buffer.alloc 256 0
    difficulty := 0
    number := 0
    gasLimit := 0
    gasUsed := 0
    timestamp := 0
    extraData := []
    mixHash := Buffer.alloc 32 0
    nonce := 0 }

/-- Modelled from the spec: the candidate backend's state manager
(`RethnetStateManager`, file RethnetState.ts, is not under src/).  Write
operations apply unconditionally (section 4.1); `checkpoint` saves a rollback
marker and `revert` discards every change made since it (glossary entry
"Checkpoint").  `finalized` records each `BlockBuilder.finalize` invocation —
the header data and reward pairs handed to the external block builder, whose
state effect is a function of exactly those inputs and the prior state. -/
structure RethnetSession where
  store : StoreState
  checkpoints : List StoreState
  finalized : List (BlockHeaderData × List (Buffer × Nat))
  deriving DecidableEq, Repr

/-- `RethnetAdapter.putAccount` (rethnet.ts lines 124-126). -/
def RethnetAdapter.putAccount (s : RethnetSession) (address : Address) (account : Account) :
    RethnetSession × Option String :=
  ({ s with store := { s.store with accounts := (address, account) :: s.store.accounts } }, none)

/-- `RethnetAdapter.putContractCode` (rethnet.ts lines 131-133). -/
def RethnetAdapter.putContractCode (s : RethnetSession) (address : Address) (value : Buffer) :
    RethnetSession × Option String :=
  ({ s with store := { s.store with contractCode := (address, value) :: s.store.contractCode } },
    none)

/-- `RethnetAdapter.putContractStorage` (rethnet.ts lines 138-144). -/
def RethnetAdapter.putContractStorage (s : RethnetSession) (address : Address)
    (key value : Buffer) : RethnetSession × Option String :=
  ({ s with store :=
      { s.store with contractStorage := ((address, key), value) :: s.store.contractStorage } },
    none)

/-- `RethnetAdapter.startBlock` (rethnet.ts lines 176-178): a checkpoint on
the state manager, with no check of any lifecycle state. -/
def RethnetAdapter.startBlock (s : RethnetSession) : RethnetSession × Option String :=
  ({ s with checkpoints := s.store :: s.checkpoints }, none)

/-- `RethnetAdapter.addBlockRewards` (rethnet.ts lines 208-240): builds a
block from the all-zero dummy header and finalizes it with the reward pairs
mapped to raw buffers; no lifecycle check is performed. -/
def RethnetAdapter.addBlockRewards (s : RethnetSession) (rewards : List (Address × Nat)) :
    RethnetSession × Option String :=
  ({ s with finalized :=
      s.finalized ++ [(dummyHeaderData, rewards.map (fun p => (p.1.buf, p.2)))] }, none)

/-- `RethnetAdapter.sealBlock` (rethnet.ts line 245): an empty body. -/
def RethnetAdapter.sealBlock (s : RethnetSession) : RethnetSession × Option String :=
  (s, none)

/-- `RethnetAdapter.revertBlock` (rethnet.ts lines 251-253): reverts the
state manager to the last checkpoint. -/
def RethnetAdapter.revertBlock (s : RethnetSession) : RethnetSession × Option String :=
  match s.checkpoints with
  | [] => (s, none)
  | c :: rest => ({ s with store := c, checkpoints := rest }, none)

/-- `RethnetAdapter.traceTransaction` (rethnet.ts lines 259-265): throws. -/
def RethnetAdapter.traceTransaction : Except String Trace :=
  Except.error ("not implemented")

/-- `RethnetAdapter.enableTracing` (rethnet.ts lines 270-276): throws. -/
def RethnetAdapter.enableTracing : Except String Unit :=
  Except.error ("not implemented")

/-- `RethnetAdapter.disableTracing` (rethnet.ts lines 281-283): throws. -/
def RethnetAdapter.disableTracing : Except String Unit :=
  Except.error ("not implemented")

/-- `RethnetAdapter.setBlockContext` (rethnet.ts lines 157-162): throws. -/
def RethnetAdapter.setBlockContext : Except String Unit :=
  Except.error ("not implemented")

/-- Modelled from the spec: the reference backend adapter
(`EthereumJSAdapter`, file ethereumjs.ts, is not under src/).  Per the
Adapter Contract (section 4.1) its writes apply unconditionally, `startBlock`
opens a checkpoint, `addBlockRewards` hands the reward pairs to the engine,
`sealBlock` finalizes and `revertBlock` discards to the checkpoint (section
4.4); the sequencing rules belong to the coordinator (section 2), so no
backend operation performs an ordering check of its own. -/
structure EthereumJSSession where
  store : StoreState
  checkpoints : List StoreState
  rewarded : List (List (Address × Nat))
  deriving DecidableEq, Repr

/-- Modelled from the spec: reference-backend `putAccount` (section 4.1). -/
def EthereumJSAdapter.putAccount (s : EthereumJSSession) (address : Address)
    (account : Account) : EthereumJSSession × Option String :=
  ({ s with store := { s.store with accounts := (address, account) :: s.store.accounts } }, none)

/-- Modelled from the spec: reference-backend `putContractCode` (section 4.1). -/
def EthereumJSAdapter.putContractCode (s : EthereumJSSession) (address : Address)
    (value : Buffer) : EthereumJSSession × Option String :=
  ({ s with store := { s.store with contractCode := (address, value) :: s.store.contractCode } },
    none)

/-- Modelled from the spec: reference-backend `putContractStorage` (section 4.1). -/
def EthereumJSAdapter.putContractStorage (s : EthereumJSSession) (address : Address)
    (key value : Buffer) : EthereumJSSession × Option String :=
  ({ s with store :=
      { s.store with contractStorage := ((address, key), value) :: s.store.contractStorage } },
    none)

/-- Modelled from the spec: reference-backend `startBlock` opens a checkpoint
(section 4.4). -/
def EthereumJSAdapter.startBlock (s : EthereumJSSession) : EthereumJSSession × Option String :=
  ({ s with checkpoints := s.store :: s.checkpoints }, none)

/-- Modelled from the spec: reference-backend `addBlockRewards` credits the
listed rewards (section 4.1); recorded here as the handed-over list. -/
def EthereumJSAdapter.addBlockRewards (s : EthereumJSSession)
    (rewards : List (Address × Nat)) : EthereumJSSession × Option String :=
  ({ s with rewarded := s.rewarded ++ [rewards] }, none)

/-- Modelled from the spec: reference-backend `sealBlock` finalizes the open
checkpoint (section 4.4). -/
def EthereumJSAdapter.sealBlock (s : EthereumJSSession) : EthereumJSSession × Option String :=
  match s.checkpoints with
  | [] => (s, none)
  | _ :: rest => ({ s with checkpoints := rest }, none)

/-- Modelled from the spec: reference-backend `revertBlock` discards to the
checkpoint (section 4.4). -/
def EthereumJSAdapter.revertBlock (s : EthereumJSSession) : EthereumJSSession × Option String :=
  match s.checkpoints with
  | [] => (s, none)
  | c :: rest => ({ s with store := c, checkpoints := rest }, none)

/-- The operations a backend adapter exposes, tagged with their arguments,
used to record which backend received which call. -/
inductive BackendOp where
  | putAccount (address : Address) (account : Account)
  | putContractCode (address : Address) (value : Buffer)
  | putContractStorage (address : Address) (key : Buffer) (value : Buffer)
  | startBlock
  | addBlockRewards (rewards : List (Address × Nat))
  | sealBlock
  | revertBlock
  | restoreContext (stateRoot : Buffer)
  | setBlockContext (blockId : Nat) (irregularStateOrUndefined : Option Buffer)
  | traceTransaction (hash : Buffer) (blockId : Nat) (config : Nat)
  | enableTracing
  | disableTracing
  deriving DecidableEq, Repr

/-- One backend invocation issued by the dual adapter. -/
inductive Call where
  | rethnet (op : BackendOp)
  | ethereumJS (op : BackendOp)
  deriving DecidableEq, Repr

/-- The pair of backend sessions held by a `DualModeAdapter`. -/
structure DualSession where
  ethereumJS : EthereumJSSession
  rethnet : RethnetSession
  deriving DecidableEq, Repr

/-- `DualModeAdapter.putAccount` (dual.ts lines 165-168): awaits the rethnet
write, then performs the ethereumJS write. -/
def DualModeAdapter.putAccount (s : DualSession) (address : Address) (account : Account) :
    DualSession × List Call × Option String :=
  match RethnetAdapter.putAccount s.rethnet address account with
  | (r, some e) => ({ s with rethnet := r }, [Call.rethnet (BackendOp.putAccount address account)], some e)
  | (r, none) =>
    match EthereumJSAdapter.putAccount s.ethereumJS address account with
    | (g, e2) =>
      ({ ethereumJS := g, rethnet := r },
        [Call.rethnet (BackendOp.putAccount address account),
          Call.ethereumJS (BackendOp.putAccount address account)], e2)

/-- `DualModeAdapter.putContractCode` (dual.ts lines 170-172): the write is
performed on the ethereumJS backend only. -/
def DualModeAdapter.putContractCode (s : DualSession) (address : Address) (value : Buffer) :
    DualSession × List Call × Option String :=
  match EthereumJSAdapter.putContractCode s.ethereumJS address value with
  | (g, e) =>
    ({ s with ethereumJS := g }, [Call.ethereumJS (BackendOp.putContractCode address value)], e)

/-- `DualModeAdapter.putContractStorage` (dual.ts lines 174-181): awaits the
rethnet write, then performs the ethereumJS write. -/
def DualModeAdapter.putContractStorage (s : DualSession) (address : Address)
    (key value : Buffer) : DualSession × List Call × Option String :=
  match RethnetAdapter.putContractStorage s.rethnet address key value with
  | (r, some e) =>
    ({ s with rethnet := r }, [Call.rethnet (BackendOp.putContractStorage address key value)],
      some e)
  | (r, none) =>
    match EthereumJSAdapter.putContractStorage s.ethereumJS address key value with
    | (g, e2) =>
      ({ ethereumJS := g, rethnet := r },
        [Call.rethnet (BackendOp.putContractStorage address key value),
          Call.ethereumJS (BackendOp.putContractStorage address key value)], e2)

/-- `DualModeAdapter.startBlock` (dual.ts lines 218-221): awaits the rethnet
checkpoint, then performs the ethereumJS one. -/
def DualModeAdapter.startBlock (s : DualSession) : DualSession × List Call × Option String :=
  match RethnetAdapter.startBlock s.rethnet with
  | (r, some e) => ({ s with rethnet := r }, [Call.rethnet BackendOp.startBlock], some e)
  | (r, none) =>
    match EthereumJSAdapter.startBlock s.ethereumJS with
    | (g, e2) =>
      ({ ethereumJS := g, rethnet := r },
        [Call.rethnet BackendOp.startBlock, Call.ethereumJS BackendOp.startBlock], e2)

/-- `DualModeAdapter.addBlockRewards` (dual.ts lines 248-253): awaits the
rethnet rewards, then performs the ethereumJS rewards; no lifecycle check. -/
def DualModeAdapter.addBlockRewards (s : DualSession) (rewards : List (Address × Nat)) :
    DualSession × List Call × Option String :=
  match RethnetAdapter.addBlockRewards s.rethnet rewards with
  | (r, some e) =>
    ({ s with rethnet := r }, [Call.rethnet (BackendOp.addBlockRewards rewards)], some e)
  | (r, none) =>
    match EthereumJSAdapter.addBlockRewards s.ethereumJS rewards with
    | (g, e2) =>
      ({ ethereumJS := g, rethnet := r },
        [Call.rethnet (BackendOp.addBlockRewards rewards),
          Call.ethereumJS (BackendOp.addBlockRewards rewards)], e2)

/-- `DualModeAdapter.sealBlock` (dual.ts lines 255-258). -/
def DualModeAdapter.sealBlock (s : DualSession) : DualSession × List Call × Option String :=
  match RethnetAdapter.sealBlock s.rethnet with
  | (r, some e) => ({ s with rethnet := r }, [Call.rethnet BackendOp.sealBlock], some e)
  | (r, none) =>
    match EthereumJSAdapter.sealBlock s.ethereumJS with
    | (g, e2) =>
      ({ ethereumJS := g, rethnet := r },
        [Call.rethnet BackendOp.sealBlock, Call.ethereumJS BackendOp.sealBlock], e2)

/-- `DualModeAdapter.revertBlock` (dual.ts lines 260-263). -/
def DualModeAdapter.revertBlock (s : DualSession) : DualSession × List Call × Option String :=
  match RethnetAdapter.revertBlock s.rethnet with
  | (r, some e) => ({ s with rethnet := r }, [Call.rethnet BackendOp.revertBlock], some e)
  | (r, none) =>
    match EthereumJSAdapter.revertBlock s.ethereumJS with
    | (g, e2) =>
      ({ ethereumJS := g, rethnet := r },
        [Call.rethnet BackendOp.revertBlock, Call.ethereumJS BackendOp.revertBlock], e2)

/-- `DualModeAdapter.traceTransaction` (dual.ts lines 188-194): delegates to
the ethereumJS backend only, returning its outcome unchanged. -/
def DualModeAdapter.traceTransaction (hash : Buffer) (blockId : Nat) (config : Nat)
    (ethereumJSOutcome : Except String Trace) : List Call × Except String Trace :=
  ([Call.ethereumJS (BackendOp.traceTransaction hash blockId config)], ethereumJSOutcome)

/-- `DualModeAdapter.enableTracing` (dual.ts lines 196-202): delegates to the
ethereumJS backend only, returning its outcome unchanged. -/
def DualModeAdapter.enableTracing (ethereumJSOutcome : Except String Unit) :
    List Call × Except String Unit :=
  ([Call.ethereumJS BackendOp.enableTracing], ethereumJSOutcome)

/-- `DualModeAdapter.disableTracing` (dual.ts lines 204-206): delegates to
the ethereumJS backend only, returning its outcome unchanged. -/
def DualModeAdapter.disableTracing (ethereumJSOutcome : Except String Unit) :
    List Call × Except String Unit :=
  ([Call.ethereumJS BackendOp.disableTracing], ethereumJSOutcome)

/-- `DualModeAdapter.setBlockContext` (dual.ts lines 208-216): delegates to
the ethereumJS backend only, returning its outcome unchanged. -/
def DualModeAdapter.setBlockContext (blockId : Nat) (irregularStateOrUndefined : Option Buffer)
    (ethereumJSOutcome : Except String Unit) : List Call × Except String Unit :=
  ([Call.ethereumJS (BackendOp.setBlockContext blockId irregularStateOrUndefined)],
    ethereumJSOutcome)

/-- Hardfork identifiers, as the strings the hardfork selector returns. -/
abbrev HardforkName := String

/-- `HardforkName.MERGE`. -/
def HardforkName.merge : HardforkName := "merge"

/-- `RethnetAdapter._getBlockEnvDifficulty` (rethnet.ts lines 285-310).  The
hardfork selector and the hardfork ordering predicate `hardforkGte` are
external collaborators of this file's sources and are taken as parameters. -/
def RethnetAdapter.getBlockEnvDifficulty (selectHardfork : Nat → HardforkName)
    (hardforkGte : HardforkName → HardforkName → Bool) (blockNumber : Nat)
    (difficulty : Option Nat) (mixHash : Option Nat) : List LogEvent × Option Nat :=
  let hardfork := selectHardfork blockNumber
  let isPostMergeHardfork := hardforkGte hardfork HardforkName.merge
  if isPostMergeHardfork then
    ([], mixHash)
  else
    match difficulty with
    | some d =>
      if d > 2 ^ 32 - 1 then
        ([LogEvent.consoleTrace ("Difficulty is larger than U256::max: " ++ toString d)],
          some (2 ^ 32 - 1))
      else ([], some d)
    | none => ([], none)

/-- The empty keyed state. -/
def emptyStore : StoreState :=
  { accounts := [], contractCode := [], contractStorage := [] }

/-- A fresh candidate-backend session. -/
def initialRethnetSession : RethnetSession :=
  { store := emptyStore, checkpoints := [], finalized := [] }

/-- A fresh reference-backend session. -/
def initialEthereumJSSession : EthereumJSSession :=
  { store := emptyStore, checkpoints := [], rewarded := [] }

/-- A fresh dual-adapter session over two fresh backends. -/
def initialDualSession : DualSession :=
  { ethereumJS := initialEthereumJSSession, rethnet := initialRethnetSession }

/-- Sample address used by concrete instantiations. -/
def addrOne : Address := { buf := [1] }

/-- Sample account with balance 1. -/
def accountA : Account := { balance := 1, nonce := 0, codeHash := [], storageRoot := [] }

/-- Sample account with balance 2, otherwise like `accountA`. -/
def accountB : Account := { balance := 2, nonce := 0, codeHash := [], storageRoot := [] }

/-- Sample contract-creating transaction result. -/
def resultCreatedA : RunTxResult :=
  { totalGasSpent := 21000, gasRefund := 0, createdAddress := some addrOne,
    execResult := { exceptionError := none, returnValue := [1, 2] } }

/-- Sample contract-creating transaction result agreeing with `resultCreatedA`
on every compared field except the return value. -/
def resultCreatedB : RunTxResult :=
  { totalGasSpent := 21000, gasRefund := 0, createdAddress := some addrOne,
    execResult := { exceptionError := none, returnValue := [3] } }

/-- Sample post-merge hardfork selector. -/
def selectMergeHardfork : Nat → HardforkName := fun _ => HardforkName.merge

/-- Sample pre-merge hardfork selector. -/
def selectBerlinHardfork : Nat → HardforkName := fun _ => "berlin"

/-- Sample hardfork ordering predicate: a hardfork is at or past another one
exactly when the two names coincide (enough to drive both branches). -/
def hardforkGteSample : HardforkName → HardforkName → Bool := fun a b => a == b

/-- Two strings with the same character data are equal. -/
theorem stringEqOfData (s t : String) (h : s.data = t.data) : s = t := by
  cases s
  cases t
  exact congrArg String.mk h

/-- Appending strings appends their character data. -/
theorem stringDataAppend (s t : String) : (s ++ t).data = s.data ++ t.data := by
  cases s
  cases t
  rfl

/-- The hexadecimal digit characters are pairwise distinct. -/
theorem hexDigit_inj : ∀ m, m < 16 → ∀ n, n < 16 → hexDigit m = hexDigit n → m = n := by
  decide

/-- The two-digit rendering of a byte determines the byte. -/
theorem byteToHex_inj (m : Nat) (hm : m < 256) (n : Nat) (hn : n < 256)
    (h : byteToHex m = byteToHex n) : m = n := by
  have hd := congrArg String.data h
  simp only [byteToHex] at hd
  obtain ⟨e1, e2⟩ : hexDigit (m / 16) = hexDigit (n / 16) ∧ hexDigit (m % 16) = hexDigit (n % 16) := by
    simpa using hd
  have h1 : m / 16 = n / 16 := hexDigit_inj _ (by omega) _ (by omega) e1
  have h2 : m % 16 = n % 16 := hexDigit_inj _ (by omega) _ (by omega) e2
  omega

/-- The hex rendering of a well-formed byte buffer determines the buffer. -/
theorem bufferToHex_inj (l1 : Buffer) (h1 : ∀ b ∈ l1, b < 256) (l2 : Buffer)
    (h2 : ∀ b ∈ l2, b < 256) (h : bufferToHex l1 = bufferToHex l2) : l1 = l2 := by
  induction l1 generalizing l2 with
  | nil =>
    cases l2 with
    | nil => rfl
    | cons c u =>
      exfalso
      have hd := congrArg String.data h
      rw [bufferToHex, bufferToHex, stringDataAppend] at hd
      simp [byteToHex] at hd
  | cons a t ih =>
    cases l2 with
    | nil =>
      exfalso
      have hd := congrArg String.data h
      rw [bufferToHex, bufferToHex, stringDataAppend] at hd
      simp [byteToHex] at hd
    | cons c u =>
      have hd := congrArg String.data h
      rw [bufferToHex, bufferToHex, stringDataAppend, stringDataAppend] at hd
      simp only [byteToHex] at hd
      obtain ⟨e1, e2, e3⟩ :
          hexDigit (a / 16) = hexDigit (c / 16) ∧ hexDigit (a % 16) = hexDigit (c % 16) ∧
            (bufferToHex t).data = (bufferToHex u).data := by
        simpa using hd
      have ha : a < 256 := h1 a (by simp)
      have hc : c < 256 := h2 c (by simp)
      have hdiv : a / 16 = c / 16 := hexDigit_inj _ (by omega) _ (by omega) e1
      have hmod : a % 16 = c % 16 := hexDigit_inj _ (by omega) _ (by omega) e2
      have hac : a = c := by omega
      have ht : t = u :=
        ih (fun b hb => h1 b (by simp [hb])) u (fun b hb => h2 b (by simp [hb]))
          (stringEqOfData _ _ e3)
      rw [hac, ht]

/-- Mapping a function over optionals preserves which side is `none`. -/
theorem optionAddressToString_none_iff (a b : Option Address)
    (h : optionAddressToString a = optionAddressToString b) : a = none ↔ b = none := by
  cases a <;> cases b <;> simp [optionAddressToString] at h ⊢

/-- Claim C1 (evidence of the code defect): on a fresh dual session,
`putContractCode` issues its write to the reference (ethereumJS) backend
only; the candidate (rethnet) backend session is left untouched and never
receives the bytecode, although the dual adapter's other mutating operations
replicate to both backends. -/
theorem putContractCode_reaches_reference_backend_only :
    (DualModeAdapter.putContractCode initialDualSession addrOne [2]).2.1 =
      [Call.ethereumJS (BackendOp.putContractCode addrOne [2])] ∧
    (DualModeAdapter.putContractCode initialDualSession addrOne [2]).1.rethnet =
      initialRethnetSession ∧
    (DualModeAdapter.putContractCode initialDualSession addrOne [2]).1.ethereumJS.store.contractCode =
      [(addrOne, [2])] ∧
    (DualModeAdapter.putContractCode initialDualSession addrOne [2]).1.rethnet.store.contractCode =
      [] :=
  ⟨rfl, rfl, rfl, rfl⟩

/-- Claim C2 (evidence of the code defect): on a fresh dual session — where no
block is open — `addBlockRewards` succeeds with no error of any kind and
mutates the candidate backend (a finalization is recorded), and a second
consecutive `startBlock` also succeeds, stacking a second checkpoint; no
sequencing check exists on any path. -/
theorem lifecycle_operations_never_raise_sequencing_error :
    (DualModeAdapter.addBlockRewards initialDualSession [(addrOne, 5)]).2.2 = none ∧
    (DualModeAdapter.addBlockRewards initialDualSession [(addrOne, 5)]).1.rethnet.finalized =
      [(dummyHeaderData, [([1], 5)])] ∧
    (DualModeAdapter.startBlock (DualModeAdapter.startBlock initialDualSession).1).2.2 = none ∧
    (DualModeAdapter.startBlock
        (DualModeAdapter.startBlock initialDualSession).1).1.rethnet.checkpoints =
      [emptyStore, emptyStore] :=
  ⟨rfl, rfl, rfl, rfl⟩

/-- Claim C5: `assertEqualAccounts` accepts two accounts exactly when their
balances, nonces and code hashes agree, and its verdict is unchanged under
any replacement of either account's storage root. -/
theorem account_equality_ignores_storageRoot (ethereumJSAccount rethnetAccount : Account) :
    ((assertEqualAccounts ethereumJSAccount rethnetAccount).2 = none ↔
      ethereumJSAccount.balance = rethnetAccount.balance ∧
        ethereumJSAccount.nonce = rethnetAccount.nonce ∧
        ethereumJSAccount.codeHash = rethnetAccount.codeHash) ∧
    (∀ root1 root2,
      (assertEqualAccounts { ethereumJSAccount with storageRoot := root1 }
          { rethnetAccount with storageRoot := root2 }).2 =
        (assertEqualAccounts ethereumJSAccount rethnetAccount).2) := by
  constructor
  · unfold assertEqualAccounts
    split_ifs <;> simp_all
  · intro root1 root2
    rfl

/-- Claim C7: each operation the candidate backend does not support —
`traceTransaction`, `enableTracing`, `disableTracing` and `setBlockContext`
(the candidate adapter throws "not implemented" for each) — is delegated by
the dual adapter to the reference (ethereumJS) backend alone, whose outcome is
returned unchanged: no comparison happens and no error is added. -/
theorem reference_only_ops_delegate_to_reference :
    RethnetAdapter.traceTransaction = Except.error ("not implemented") ∧
    RethnetAdapter.enableTracing = Except.error ("not implemented") ∧
    RethnetAdapter.disableTracing = Except.error ("not implemented") ∧
    RethnetAdapter.setBlockContext = Except.error ("not implemented") ∧
    (∀ hash blockId config ethereumJSOutcome,
      DualModeAdapter.traceTransaction hash blockId config ethereumJSOutcome =
        ([Call.ethereumJS (BackendOp.traceTransaction hash blockId config)],
          ethereumJSOutcome)) ∧
    (∀ ethereumJSOutcome,
      DualModeAdapter.enableTracing ethereumJSOutcome =
        ([Call.ethereumJS BackendOp.enableTracing], ethereumJSOutcome)) ∧
    (∀ ethereumJSOutcome,
      DualModeAdapter.disableTracing ethereumJSOutcome =
        ([Call.ethereumJS BackendOp.disableTracing], ethereumJSOutcome)) ∧
    (∀ blockId irregular ethereumJSOutcome,
      DualModeAdapter.setBlockContext blockId irregular ethereumJSOutcome =
        ([Call.ethereumJS (BackendOp.setBlockContext blockId irregular)], ethereumJSOutcome)) :=
  ⟨rfl, rfl, rfl, rfl, fun _ _ _ _ => rfl, fun _ => rfl, fun _ => rfl, fun _ _ _ => rfl⟩

/-- Claim C8: `startBlock` on the dual adapter issues the candidate (rethnet)
checkpoint first and the reference (ethereumJS) checkpoint second, and both
checkpoints are open in the session it returns. -/
theorem startBlock_checkpoints_candidate_first (s : DualSession) :
    (DualModeAdapter.startBlock s).2.1 =
      [Call.rethnet BackendOp.startBlock, Call.ethereumJS BackendOp.startBlock] ∧
    (DualModeAdapter.startBlock s).1.rethnet.checkpoints =
      s.rethnet.store :: s.rethnet.checkpoints ∧
    (DualModeAdapter.startBlock s).1.ethereumJS.checkpoints =
      s.ethereumJS.store :: s.ethereumJS.checkpoints :=
  ⟨rfl, rfl, rfl⟩

/-- Claim C10: the candidate backend's `addBlockRewards` always hands the
block builder the fixed all-zero dummy header together with data computed
from the rewards list alone, so the recorded finalization depends only on the
rewards and the prior session, never on any in-flight block's header. -/
theorem addBlockRewards_uses_fixed_dummy_header (s : RethnetSession)
    (rewards : List (Address × Nat)) :
    (RethnetAdapter.addBlockRewards s rewards).1.finalized =
      s.finalized ++ [(dummyHeaderData, rewards.map (fun p => (p.1.buf, p.2)))] ∧
    (RethnetAdapter.addBlockRewards s rewards).2 = none ∧
    dummyHeaderData.parentHash = List.replicate 32 0 ∧
    dummyHeaderData.ommersHash = List.replicate 32 0 ∧
    dummyHeaderData.beneficiary = List.replicate 20 0 ∧
    dummyHeaderData.stateRoot = List.replicate 32 0 ∧
    dummyHeaderData.transactionsRoot = List.replicate 32 0 ∧
    dummyHeaderData.receiptsRoot = List.replicate 32 0 ∧
    dummyHeaderData.logsBloom = List.replicate 256 0 ∧
    dummyHeaderData.difficulty = 0 ∧
    dummyHeaderData.number = 0 ∧
    dummyHeaderData.gasLimit = 0 ∧
    dummyHeaderData.gasUsed = 0 ∧
    dummyHeaderData.timestamp = 0 ∧
    dummyHeaderData.extraData = [] ∧
    dummyHeaderData.mixHash = List.replicate 32 0 ∧
    dummyHeaderData.nonce = 0 :=
  ⟨rfl, rfl, rfl, rfl, rfl, rfl, rfl, rfl, rfl, rfl, rfl, rfl, rfl, rfl, rfl, rfl, rfl⟩

/-- Claim C3: `assertEqualRunTxResults` compares the return values
byte-for-byte exactly when no contract was created in either result: when a
contract was created (in either result) no returnValue divergence is ever
raised; when none was created and every earlier check passes, differing
return-value bytes raise the returnValue divergence; and a returnValue
divergence can only arise from creation-free results with differing bytes. -/
theorem returnValue_compared_iff_no_contract_created (e r : RunTxResult)
    (hwf1 : ∀ b ∈ e.execResult.returnValue, b < 256)
    (hwf2 : ∀ b ∈ r.execResult.returnValue, b < 256) :
    ((e.createdAddress ≠ none ∨ r.createdAddress ≠ none) →
      (assertEqualRunTxResults e r).2 ≠ some ("Different returnValue")) ∧
    (e.createdAddress = none → r.createdAddress = none →
      reachesReturnValueCheck e r →
      e.execResult.returnValue ≠ r.execResult.returnValue →
      (assertEqualRunTxResults e r).2 = some ("Different returnValue")) ∧
    ((assertEqualRunTxResults e r).2 = some ("Different returnValue") →
      e.createdAddress = none ∧ r.createdAddress = none ∧
        e.execResult.returnValue ≠ r.execResult.returnValue) := by
  refine ⟨?_, ?_, ?_⟩
  · intro hor
    unfold assertEqualRunTxResults
    split_ifs with h1 h2 h3 h4 h5 h6 h7
    · exact fun hx => absurd (Option.some.inj hx) (by decide)
    · exact fun hx => absurd (Option.some.inj hx) (by decide)
    · exact fun hx => absurd (Option.some.inj hx) (by decide)
    · exact fun hx => absurd (Option.some.inj hx) (by decide)
    · exact fun hx => absurd (Option.some.inj hx) (by decide)
    · exfalso
      have hiff := optionAddressToString_none_iff _ _ (not_not.mp h3)
      rcases hor with hx | hx
      · exact hx h6
      · exact hx (hiff.mp h6)
    · exact fun hx => Option.noConfusion hx
    · exact fun hx => Option.noConfusion hx
  · intro hca hcb hreach hne
    obtain ⟨g1, g2, g3, g4, g5⟩ := hreach
    have hbufne : bufferToHex e.execResult.returnValue ≠ bufferToHex r.execResult.returnValue :=
      fun hx => hne (bufferToHex_inj _ hwf1 _ hwf2 hx)
    unfold assertEqualRunTxResults
    split_ifs with h1 h2 h3 h4 h5
    · exact absurd g1 h1
    · exact absurd g2 h2
    · exact absurd g3 h3
    · exact absurd g4 h4
    · exact absurd g5 h5
    · rfl
  · unfold assertEqualRunTxResults
    split_ifs with h1 h2 h3 h4 h5 h6 h7 <;> intro hx
    · exact absurd (Option.some.inj hx) (by decide)
    · exact absurd (Option.some.inj hx) (by decide)
    · exact absurd (Option.some.inj hx) (by decide)
    · exact absurd (Option.some.inj hx) (by decide)
    · exact absurd (Option.some.inj hx) (by decide)
    · refine ⟨h6, (optionAddressToString_none_iff _ _ (not_not.mp h3)).mp h6, ?_⟩
      exact fun heq => h7 (congrArg bufferToHex heq)
    · exact hx.elim
    · exact hx.elim

/-- Claim C3 witness: two concrete contract-creating results that differ only
in their return-value bytes are accepted without a returnValue divergence. -/
theorem returnValue_compared_iff_no_contract_created_witness :
    (∀ b ∈ resultCreatedA.execResult.returnValue, b < 256) ∧
    (∀ b ∈ resultCreatedB.execResult.returnValue, b < 256) ∧
    (resultCreatedA.createdAddress ≠ none ∨ resultCreatedB.createdAddress ≠ none) ∧
    (assertEqualRunTxResults resultCreatedA resultCreatedB).2 ≠
      some ("Different returnValue") :=
  ⟨by decide, by decide, by decide,
    (returnValue_compared_iff_no_contract_created resultCreatedA resultCreatedB
      (by decide) (by decide)).1 (by decide)⟩

/-- Claim C9: gating the returnValue comparison on the reference result's
`createdAddress` alone is equivalent to gating it on no contract having been
created in either result — `assertEqualRunTxResults` coincides everywhere
with the spec-gated variant, and whenever control reaches the returnValue
check the two results agree on the absence of a created address. -/
theorem createdAddress_gate_matches_both_results :
    (∀ e r, assertEqualRunTxResults e r = assertEqualRunTxResultsBothGate e r) ∧
    (∀ e r, reachesReturnValueCheck e r →
      (e.createdAddress = none ↔ r.createdAddress = none) ∧
      ((e.createdAddress = none) ↔
        (e.createdAddress = none ∧ r.createdAddress = none))) := by
  constructor
  · intro e r
    cases hca : e.createdAddress <;> cases hcb : r.createdAddress <;>
      simp [assertEqualRunTxResults, assertEqualRunTxResultsBothGate, optionAddressToString,
        hca, hcb]
  · intro e r hreach
    have hiff := optionAddressToString_none_iff _ _ hreach.2.2.1
    exact ⟨hiff, Iff.intro (fun he => ⟨he, hiff.mp he⟩) And.left⟩

/-- Claim C9 witness: the gate equivalence instantiated at concrete results
that reach the returnValue check with a created address present in both. -/
theorem createdAddress_gate_matches_both_results_witness :
    reachesReturnValueCheck resultCreatedA resultCreatedB ∧
    ((resultCreatedA.createdAddress = none ↔ resultCreatedB.createdAddress = none) ∧
      ((resultCreatedA.createdAddress = none) ↔
        (resultCreatedA.createdAddress = none ∧ resultCreatedB.createdAddress = none))) := by
  have h : reachesReturnValueCheck resultCreatedA resultCreatedB := by
    unfold reachesReturnValueCheck
    decide
  exact ⟨h, createdAddress_gate_matches_both_results.2 resultCreatedA resultCreatedB h⟩

/-- Claim C6: for every block number, a post-merge hardfork populates the
block environment's difficulty slot from the header's mix-hash; a pre-merge
hardfork populates it from the header's difficulty, clamped to exactly
2 to the 32nd minus 1 — with a warning emitted — whenever it exceeds that bound. -/
theorem getBlockEnvDifficulty_mixHash_or_clamped (selectHardfork : Nat → HardforkName)
    (hardforkGte : HardforkName → HardforkName → Bool) (blockNumber : Nat)
    (difficulty mixHash : Option Nat) :
    (hardforkGte (selectHardfork blockNumber) HardforkName.merge = true →
      RethnetAdapter.getBlockEnvDifficulty selectHardfork hardforkGte blockNumber difficulty
        mixHash = ([], mixHash)) ∧
    (hardforkGte (selectHardfork blockNumber) HardforkName.merge = false →
      (∀ d, difficulty = some d → 2 ^ 32 - 1 < d →
        RethnetAdapter.getBlockEnvDifficulty selectHardfork hardforkGte blockNumber difficulty
          mixHash =
          ([LogEvent.consoleTrace ("Difficulty is larger than U256::max: " ++ toString d)],
            some (2 ^ 32 - 1))) ∧
      (∀ d, difficulty = some d → d ≤ 2 ^ 32 - 1 →
        RethnetAdapter.getBlockEnvDifficulty selectHardfork hardforkGte blockNumber difficulty
          mixHash = ([], some d)) ∧
      (difficulty = none →
        RethnetAdapter.getBlockEnvDifficulty selectHardfork hardforkGte blockNumber difficulty
          mixHash = ([], none))) := by
  constructor
  · intro h
    unfold RethnetAdapter.getBlockEnvDifficulty
    simp [h]
  · intro h
    refine ⟨?_, ?_, ?_⟩
    · intro d hd hlt
      have hlt2 : (4294967295 : Nat) < d := by omega
      unfold RethnetAdapter.getBlockEnvDifficulty
      simp [h, hd, hlt2]
    · intro d hd hle
      have hnot : ¬((4294967295 : Nat) < d) := by omega
      unfold RethnetAdapter.getBlockEnvDifficulty
      simp [h, hd, hnot]
    · intro hd
      unfold RethnetAdapter.getBlockEnvDifficulty
      simp [h, hd]

/-- Claim C6 witness: the merge branch returns the mix-hash, and a pre-merge
difficulty of 2 to the 32nd is clamped to 2 to the 32nd minus 1 with the warning. -/
theorem getBlockEnvDifficulty_mixHash_or_clamped_witness :
    (hardforkGteSample (selectMergeHardfork 0) HardforkName.merge = true ∧
      RethnetAdapter.getBlockEnvDifficulty selectMergeHardfork hardforkGteSample 0 (some 7)
        (some 99) = ([], some 99)) ∧
    (hardforkGteSample (selectBerlinHardfork 0) HardforkName.merge = false ∧
      2 ^ 32 - 1 < 4294967296 ∧
      RethnetAdapter.getBlockEnvDifficulty selectBerlinHardfork hardforkGteSample 0
        (some 4294967296) (some 99) =
        ([LogEvent.consoleTrace ("Difficulty is larger than U256::max: " ++
          toString (4294967296 : Nat))], some (2 ^ 32 - 1))) := by
  refine ⟨⟨by decide, ?_⟩, ⟨by decide, by norm_num, ?_⟩⟩
  · exact (getBlockEnvDifficulty_mixHash_or_clamped selectMergeHardfork hardforkGteSample 0
      (some 7) (some 99)).1 (by decide)
  · exact ((getBlockEnvDifficulty_mixHash_or_clamped selectBerlinHardfork hardforkGteSample 0
      (some 4294967296) (some 99)).2 (by decide)).1 4294967296 rfl (by norm_num)

/-- Claim C4 (amended): every divergence on a compared operation raises an
error naming the differing field, with both values rendered into the console
output; the transaction comparisons `dryRun` and `runTxInBlock` additionally
render both backends' execution traces before the error propagates, while the
state-read comparisons (account, storage slot, contract code, state root)
raise the error without rendering any execution trace. -/
theorem divergence_error_naming_and_trace_dumps (e r : RunTxResult)
    (ethereumJSTrace rethnetTrace : Trace) (a b : Account) (s1 s2 c1 c2 r1 r2 : Buffer) :
    (e.totalGasSpent ≠ r.totalGasSpent →
      assertEqualRunTxResults e r =
        ([LogEvent.consoleTrace (divergenceMsg ("totalGasSpent") (toString e.totalGasSpent)
          (toString r.totalGasSpent))], some ("Different totalGasSpent"))) ∧
    (e.totalGasSpent = r.totalGasSpent → e.gasRefund ≠ r.gasRefund →
      assertEqualRunTxResults e r =
        ([LogEvent.consoleTrace (divergenceMsg ("gasRefund") (toString e.gasRefund)
          (toString r.gasRefund))], some ("Different gasRefund"))) ∧
    (e.totalGasSpent = r.totalGasSpent → e.gasRefund = r.gasRefund →
      optionAddressToString e.createdAddress ≠ optionAddressToString r.createdAddress →
      assertEqualRunTxResults e r =
        ([LogEvent.consoleTrace (divergenceMsg ("createdAddress")
          (renderOptionString (optionAddressToString e.createdAddress))
          (renderOptionString (optionAddressToString r.createdAddress)))],
          some ("Different createdAddress"))) ∧
    (e.totalGasSpent = r.totalGasSpent → e.gasRefund = r.gasRefund →
      optionAddressToString e.createdAddress = optionAddressToString r.createdAddress →
      e.execResult.exceptionError.map ExceptionError.error ≠
        r.execResult.exceptionError.map ExceptionError.error →
      assertEqualRunTxResults e r =
        ([LogEvent.consoleTrace (divergenceMsg ("exceptionError.error")
          (renderOptionString (e.execResult.exceptionError.map ExceptionError.error))
          (renderOptionString (r.execResult.exceptionError.map ExceptionError.error)))],
          some ("Different exceptionError.error"))) ∧
    (e.totalGasSpent = r.totalGasSpent → e.gasRefund = r.gasRefund →
      optionAddressToString e.createdAddress = optionAddressToString r.createdAddress →
      e.execResult.exceptionError.map ExceptionError.error =
        r.execResult.exceptionError.map ExceptionError.error →
      e.execResult.exceptionError.map ExceptionError.errorType ≠
        r.execResult.exceptionError.map ExceptionError.errorType →
      assertEqualRunTxResults e r =
        ([LogEvent.consoleTrace (divergenceMsg ("exceptionError.errorType")
          (renderOptionString (e.execResult.exceptionError.map ExceptionError.errorType))
          (renderOptionString (r.execResult.exceptionError.map ExceptionError.errorType)))],
          some ("Different exceptionError.errorType"))) ∧
    (reachesReturnValueCheck e r → e.createdAddress = none →
      bufferToHex e.execResult.returnValue ≠ bufferToHex r.execResult.returnValue →
      assertEqualRunTxResults e r =
        ([LogEvent.consoleTrace (divergenceMsg ("returnValue")
          (bufferToHex e.execResult.returnValue) (bufferToHex r.execResult.returnValue))],
          some ("Different returnValue"))) ∧
    (∀ log msg, assertEqualRunTxResults e r = (log, some msg) →
      DualModeAdapter.dryRun e r ethereumJSTrace rethnetTrace =
        (log ++ traceDumpEvents ethereumJSTrace rethnetTrace, Except.error msg) ∧
      DualModeAdapter.runTxInBlock e r ethereumJSTrace rethnetTrace =
        (log ++ traceDumpEvents ethereumJSTrace rethnetTrace, Except.error msg)) ∧
    (a.balance ≠ b.balance →
      assertEqualAccounts a b =
        ([LogEvent.consoleTrace (divergenceMsg ("balance") (toString a.balance)
          (toString b.balance))], some ("Different balance"))) ∧
    (a.balance = b.balance → a.codeHash ≠ b.codeHash →
      assertEqualAccounts a b =
        ([LogEvent.consoleTrace (divergenceMsg ("codeHash") (bufferToHex a.codeHash)
          (bufferToHex b.codeHash))], some ("Different codeHash"))) ∧
    (a.balance = b.balance → a.codeHash = b.codeHash → a.nonce ≠ b.nonce →
      assertEqualAccounts a b =
        ([LogEvent.consoleTrace (divergenceMsg ("nonce") (toString a.nonce)
          (toString b.nonce))], some ("Different nonce"))) ∧
    (∀ log msg, assertEqualAccounts a b = (log, some msg) →
      DualModeAdapter.getAccount a b = (log, Except.error msg)) ∧
    (s1 ≠ s2 →
      DualModeAdapter.getContractStorage s1 s2 =
        ([LogEvent.consoleTrace (divergenceMsg ("storage slot") (bufferToHex s1)
          (bufferToHex s2))], Except.error ("Different storage slot"))) ∧
    (c1 ≠ c2 →
      DualModeAdapter.getContractCode c1 c2 =
        ([LogEvent.consoleTrace (divergenceMsg ("contract code") (bufferToHex c1)
          (bufferToHex c2))], Except.error ("Different contract code"))) ∧
    (r1 ≠ r2 →
      DualModeAdapter.getStateRoot r1 r2 =
        ([LogEvent.consoleTrace (divergenceMsg ("state root") (bufferToHex r1)
          (bufferToHex r2))], Except.error ("Different state root"))) := by
  refine ⟨?_, ?_, ?_, ?_, ?_, ?_, ?_, ?_, ?_, ?_, ?_, ?_, ?_, ?_⟩
  · intro h1
    simp [assertEqualRunTxResults, h1]
  · intro h1 h2
    simp [assertEqualRunTxResults, h1, h2]
  · intro h1 h2 h3
    simp [assertEqualRunTxResults, h1, h2, h3]
  · intro h1 h2 h3 h4
    simp [assertEqualRunTxResults, h1, h2, h3, h4]
  · intro h1 h2 h3 h4 h5
    simp [assertEqualRunTxResults, h1, h2, h3, h4, h5]
  · intro hreach hca hret
    obtain ⟨g1, g2, g3, g4, g5⟩ := hreach
    have hcb : r.createdAddress = none := (optionAddressToString_none_iff _ _ g3).mp hca
    simp [assertEqualRunTxResults, g1, g2, g4, g5, hca, hcb, hret]
  · intro log msg h
    constructor
    · simp [DualModeAdapter.dryRun, h]
    · simp [DualModeAdapter.runTxInBlock, h]
  · intro h1
    simp [assertEqualAccounts, h1]
  · intro h1 h2
    simp [assertEqualAccounts, h1, h2]
  · intro h1 h2 h3
    simp [assertEqualAccounts, h1, h2, h3]
  · intro log msg h
    simp [DualModeAdapter.getAccount, h]
  · intro h
    simp [DualModeAdapter.getContractStorage, h]
  · intro h
    simp [DualModeAdapter.getContractCode, h]
  · intro h
    simp [DualModeAdapter.getStateRoot, h]

/-- Claim C4 witness: the divergence-reporting behavior instantiated at a
concrete pair of accounts differing in balance. -/
theorem divergence_error_naming_and_trace_dumps_witness :
    accountA.balance ≠ accountB.balance ∧
    assertEqualAccounts accountA accountB =
      ([LogEvent.consoleTrace (divergenceMsg ("balance") (toString accountA.balance)
        (toString accountB.balance))], some ("Different balance")) :=
  ⟨by decide,
    (divergence_error_naming_and_trace_dumps resultCreatedA resultCreatedB 0 0 accountA accountB
      [] [] [] [] [] []).2.2.2.2.2.2.2.1 (by decide)⟩

/-- Claim C4 counterexample: on a concrete account divergence, `getAccount`
lets the error propagate with only the `console.trace` message in its console
output — no execution trace of either backend is rendered, because the read
comparisons have no traces to render. -/
theorem getAccount_divergence_renders_no_traces :
    (DualModeAdapter.getAccount accountA accountB).2 = Except.error ("Different balance") ∧
    (DualModeAdapter.getAccount accountA accountB).1 =
      [LogEvent.consoleTrace (divergenceMsg ("balance") ("1") ("2"))] ∧
    (∀ t : Trace,
      LogEvent.ethereumJSTraceDump t ∉ (DualModeAdapter.getAccount accountA accountB).1) ∧
    (∀ t : Trace,
      LogEvent.rethnetTraceDump t ∉ (DualModeAdapter.getAccount accountA accountB).1) := by
  refine ⟨rfl, rfl, ?_, ?_⟩
  · intro t
    simp [DualModeAdapter.getAccount, assertEqualAccounts, accountA, accountB]
  · intro t
    simp [DualModeAdapter.getAccount, assertEqualAccounts, accountA, accountB]
